import Mathlib

/-!
Shallow embedding of the merchant sales report script (src/app2.py):
loader column validation, the vendor-filtered metrics view, the
vendor-and-channel-filtered report view, the financial metric rules,
and vendor-name resolution.  Numeric cells are modelled as Option ℚ,
where a null models the NaN produced by coercion with errors set to
coerce; pandas sums skip NaN and an empty sum is 0.
-/

namespace MerchantSales

/-- One transaction row after the cleaning step (lines 102 to 112 of
app2.py): the Date_only projection as an abstract day index (null for an
unparseable NaT date), the numeric columns Amount, Commission, Vat and
Vid coerced with null for unparseable cells, and the raw Channel Type
cell (null when the cell is missing). -/
structure Row where
  date : Option Nat
  amount : Option ℚ
  commission : Option ℚ
  vat : Option ℚ
  vid : Option ℚ
  channel : Option String
deriving DecidableEq

/-- Pandas column sum over a row list: null cells are skipped and the
empty sum is 0, as in Series.sum. -/
def sumBy (f : Row → Option ℚ) (l : List Row) : ℚ :=
  (l.map (fun r => (f r).getD 0)).sum

/-- Vendor filter, line 144: Vid isin the selected list; a null Vid is
never a member, as NaN isin anything is false. -/
def filterVids (rows : List Row) (vids : List ℚ) : List Row :=
  rows.filter (fun r => match r.vid with
    | some v => vids.contains v
    | none => false)

/-- The metrics view, line 144 of app2.py.  With a nonempty selection
the frame is filtered by Vid membership; with an empty selection the
script indexes the frame with the scalar True, which pandas rejects
with a KeyError caught only by the top level handler. -/
def metricsView (rows : List Row) (vids : List ℚ) : Except String (List Row) :=
  if vids.isEmpty then Except.error "KeyError: True"
  else Except.ok (filterVids rows vids)

/-- Channel filter, line 147: Channel Type isin the selected list; a
null channel cell is never a member. -/
def filterChannels (rows : List Row) (channels : List String) : List Row :=
  rows.filter (fun r => match r.channel with
    | some c => channels.contains c
    | none => false)

/-- The report and chart view, line 147 of app2.py: the metrics view
further filtered by Channel Type membership. -/
def reportView (rows : List Row) (vids : List ℚ) (channels : List String) :
    Except String (List Row) :=
  (metricsView rows vids).map (fun m => filterChannels m channels)

/-- Rows of a view whose Channel Type is C2B, lines 161 and 162. -/
def c2b_rows (view : List Row) : List Row :=
  view.filter (fun r => r.channel == some "C2B")

/-- Line 165: sum of Amount over the C2B rows of the view. -/
def total_revenue (view : List Row) : ℚ := sumBy Row.amount (c2b_rows view)

/-- Line 166: absolute value of the sum of Amount over REFUND rows. -/
def total_refunds (view : List Row) : ℚ :=
  |sumBy Row.amount (view.filter (fun r => r.channel == some "REFUND"))|

/-- Line 167: fixed 50.0 charge per uploaded file, unconditional. -/
def bank_transfer_charges (n : Nat) : ℚ := 50 * n

/-- Line 168: 16 percent VAT on the bank transfer charges. -/
def vat_bank_transfer (n : Nat) : ℚ := bank_transfer_charges n * (16 / 100)

/-- Line 169: 1 percent of the C2B amounts. -/
def nayax_commission (view : List Row) : ℚ := total_revenue view * (1 / 100)

/-- Line 170: half a percent of the C2B amounts. -/
def bck_commission (view : List Row) : ℚ := total_revenue view * (5 / 1000)

/-- Line 171: sum of Commission over every row of the view. -/
def ipay_commission (view : List Row) : ℚ := sumBy Row.commission view

/-- Line 172: sum of Vat over every row of the view. -/
def total_vat (view : List Row) : ℚ := sumBy Row.vat view

/-- Lines 173 to 176: the net remittance of the metrics view. -/
def amount_to_remit (view : List Row) (n : Nat) : ℚ :=
  total_revenue view -
    (total_refunds view + ipay_commission view + bank_transfer_charges n +
      vat_bank_transfer n + nayax_commission view + bck_commission view +
      total_vat view)

/-- Line 227: the report charge is 50.0 per file only when some row of
the report view has Channel Type BANKCOST, otherwise 0. -/
def report_bank_transfer_charges (view : List Row) (n : Nat) : ℚ :=
  if view.any (fun r => r.channel == some "BANKCOST") then 50 * n else 0

/-- Line 228: 16 percent VAT on the report charge. -/
def report_vat_bank_transfer (view : List Row) (n : Nat) : ℚ :=
  report_bank_transfer_charges view n * (16 / 100)

/-- Lines 233 to 236: the net remittance recomputed for the report view,
with the conditional bank transfer charge. -/
def report_amount_to_remit (view : List Row) (n : Nat) : ℚ :=
  total_revenue view -
    (total_refunds view + ipay_commission view +
      report_bank_transfer_charges view n + report_vat_bank_transfer view n +
      nayax_commission view + bck_commission view + total_vat view)

/-- Modelled from the spec words of the refinement claim: the metrics
view formula, with the unconditional bank transfer charge rule of the
metrics view, applied to an arbitrary row set.  To be compared with
report_amount_to_remit, the rule the source actually applies. -/
def spec_metrics_formula_remit (view : List Row) (n : Nat) : ℚ :=
  total_revenue view -
    (total_refunds view + ipay_commission view + bank_transfer_charges n +
      vat_bank_transfer n + nayax_commission view + bck_commission view +
      total_vat view)

/-- Distinct non-null Date_only values of a view: the group keys of the
groupby on line 186, which drops the null key. -/
def dates_of (view : List Row) : List Nat := (view.filterMap Row.date).dedup

/-- Sum of Amount over the rows of the view carrying a given date: one
group sum of the groupby on line 186. -/
def daily_sum (view : List Row) (d : Nat) : ℚ :=
  sumBy Row.amount (view.filter (fun r => r.date == some d))

/-- Lines 185 to 190 of app2.py: when the Date_only column has at least
one distinct value, equivalently when the view is nonempty since a null
date still counts as a distinct value, the displayed figure is the mean
of the per-date Amount sums over every row of the view; the mean of an
empty group series is NaN, modelled as none, which happens when the view
is nonempty but every date is null.  An empty view displays 0.00. -/
def avg_daily (view : List Row) : Option ℚ :=
  if view.isEmpty then some 0
  else
    let ds := dates_of view
    if ds.isEmpty then none
    else some ((ds.map (daily_sum view)).sum / ds.length)

/-- The record of scalar metrics displayed for the metrics view. -/
structure MetricsSnapshot where
  total_revenue : ℚ
  total_refunds : ℚ
  bank_transfer_charges : ℚ
  vat_bank_transfer : ℚ
  nayax_commission : ℚ
  bck_commission : ℚ
  ipay_commission : ℚ
  total_vat : ℚ
  amount_to_remit : ℚ
  avg_daily_revenue : Option ℚ
deriving DecidableEq

/-- Build the metric record of lines 164 to 190 from the metrics view
and the uploaded file count. -/
def mkSnapshot (mdf : List Row) (n : Nat) : MetricsSnapshot :=
  { total_revenue := total_revenue mdf
    total_refunds := total_refunds mdf
    bank_transfer_charges := bank_transfer_charges n
    vat_bank_transfer := vat_bank_transfer n
    nayax_commission := nayax_commission mdf
    bck_commission := bck_commission mdf
    ipay_commission := ipay_commission mdf
    total_vat := total_vat mdf
    amount_to_remit := amount_to_remit mdf n
    avg_daily_revenue := avg_daily mdf }

/-- A key of the vendor mapping produced by evaluating the mapping text:
a Python dict key that is either a string or a number. -/
inductive MKey where
  | str : String → MKey
  | num : ℚ → MKey
deriving DecidableEq

/-- A vendor mapping as an association list of dict entries. -/
abbrev VendorMap := List (MKey × String)

/-- The fallback mapping of line 156, with the numeric key 254499. -/
def default_vendor_map : VendorMap := [(MKey.num 254499, "Vendlite")]

/-- Python dict lookup on the association list. -/
def mapLookup (m : VendorMap) (k : MKey) : Option String :=
  (m.find? (fun p => p.1 == k)).map Prod.snd

/-- Python str of a float Vid value as used by astype on line 152; exact
for integral floats, the only values the theorems below evaluate it on:
str of 254499.0 is the digits followed by a .0 suffix. -/
def floatStr (q : ℚ) : String :=
  if q.den = 1 then toString q.num ++ ".0" else toString q.num ++ "/" ++ toString q.den

/-- Lines 150 to 158: when evaluating the mapping text or applying it
raises, the script falls back to the default mapping and emits a
warning, and the computation proceeds; the Bool records the warning. -/
def resolveMapping (parsed : Option VendorMap) : VendorMap × Bool :=
  match parsed with
  | some m => (m, false)
  | none => (default_vendor_map, true)

/-- Line 152: the Vendor Name of a row is the mapping value for its Vid
when the lookup hits, otherwise the stringified Vid; a null Vid maps to
str of NaN. -/
def vendorName (m : VendorMap) (r : Row) : String :=
  match r.vid with
  | some v => (mapLookup m (MKey.num v)).getD (floatStr v)
  | none => "nan"

/-- Everything one computation cycle produces that the claims mention:
the metric record, the report remittance, the vendor mapping actually
used, whether the fallback warning fired, and the resolved vendor names
of the report view rows. -/
structure ComputeOutput where
  snapshot : MetricsSnapshot
  report_remit : ℚ
  vendor_map_used : VendorMap
  warning : Bool
  vendor_names : List String
deriving DecidableEq

/-- One full computation cycle over the cleaned rows, mirroring lines
144 to 236 of app2.py: build the metrics view, the report view, resolve
the mapping text through the given evaluator with fallback on failure,
and produce the outputs.  A failure of the view construction, the
KeyError of the empty vendor selection, aborts the cycle. -/
def computeAll (rows : List Row) (vids : List ℚ) (channels : List String)
    (n : Nat) (parse : String → Option VendorMap) (text : String) :
    Except String ComputeOutput :=
  match metricsView rows vids with
  | Except.error e => Except.error e
  | Except.ok mdf =>
    let fdf := filterChannels mdf channels
    let vmw := resolveMapping (parse text)
    Except.ok
      { snapshot := mkSnapshot mdf n
        report_remit := report_amount_to_remit fdf n
        vendor_map_used := vmw.1
        warning := vmw.2
        vendor_names := fdf.map (vendorName vmw.1) }

/-- One uploaded file after reading: its name, the header columns found,
and the rows it contributes. -/
structure SourceFile where
  name : String
  columns : List String
  rows : List Row

/-- Line 86: the required header columns. -/
def expected_columns : List String :=
  ["Date", "Amount", "Commission", "Vat", "Vid", "Channel Type"]

/-- Line 90: a file passes validation when every expected column occurs
among its columns. -/
def hasCols (f : SourceFile) : Bool :=
  expected_columns.all (fun c => f.columns.contains c)

/-- Line 91: the error message naming the offending file and the
expected column list. -/
def schema_error_msg (name : String) : String :=
  "File " ++ name ++ " does not have the expected columns: " ++
    String.intercalate ", " expected_columns

/-- Lines 87 to 93: validate the files in order; the first file missing
a column stops everything with the schema error, otherwise the rows of
all files are concatenated. -/
def loadRows : List SourceFile → Except String (List Row)
  | [] => Except.ok []
  | f :: fs =>
    if hasCols f then (loadRows fs).map (fun rs => f.rows ++ rs)
    else Except.error (schema_error_msg f.name)

/-- Lines 87 to 100: load the batch; on success the concatenated rows
and the retained file count, on a schema mismatch the error and no
partial result. -/
def loadFiles (files : List SourceFile) : Except String (List Row × Nat) :=
  if files.isEmpty then Except.error "No valid data loaded from the uploaded files."
  else (loadRows files).map (fun rs => (rs, files.length))

/-- Scenario row: a C2B sale of 1000 on day 0 for vendor 7. -/
def rowC2B : Row :=
  { date := some 0, amount := some 1000, commission := none, vat := none,
    vid := some 7, channel := some "C2B" }

/-- Scenario row: a refund of 200 on day 0 for vendor 7. -/
def rowRefund : Row :=
  { date := some 0, amount := some (-200), commission := none, vat := none,
    vid := some 7, channel := some "REFUND" }

/-- Scenario row: a BANKCOST row with no amount, Commission 5, Vat 10. -/
def rowBankcost : Row :=
  { date := some 0, amount := none, commission := some 5, vat := some 10,
    vid := some 7, channel := some "BANKCOST" }

/-- The three rows of Scenario A of the spec. -/
def scenarioA : List Row := [rowC2B, rowRefund, rowBankcost]

/-- A row whose Vid is the documented vendor id 254499. -/
def rowVend : Row :=
  { date := none, amount := none, commission := none, vat := none,
    vid := some 254499, channel := some "C2B" }

/-- A file missing every required column but Date. -/
def badFile : SourceFile := { name := "a.csv", columns := ["Date"], rows := [] }

deriving instance DecidableEq for Except

/- Helper facts about the channel type literals, used to evaluate the
filters on concrete rows. -/

theorem str_refund_c2b : ("REFUND" = "C2B") = False := eq_false (by decide)

theorem str_bankcost_c2b : ("BANKCOST" = "C2B") = False := eq_false (by decide)

theorem str_c2b_c2b : ("C2B" = "C2B") = True := eq_true rfl

theorem str_c2b_refund : ("C2B" = "REFUND") = False := eq_false (by decide)

theorem str_bankcost_refund : ("BANKCOST" = "REFUND") = False := eq_false (by decide)

theorem str_refund_refund : ("REFUND" = "REFUND") = True := eq_true rfl

theorem str_c2b_bankcost : ("C2B" = "BANKCOST") = False := eq_false (by decide)

theorem str_refund_bankcost : ("REFUND" = "BANKCOST") = False := eq_false (by decide)

theorem str_bankcost_bankcost : ("BANKCOST" = "BANKCOST") = True := eq_true rfl

/-- C1: for every metrics view row set and file count, amount_to_remit
equals total_revenue minus the sum of total_refunds, ipay_commission,
bank_transfer_charges, vat_bank_transfer, nayax_commission,
bck_commission and total_vat, each computed by its own rule from the
same rows; and on the Scenario A rows, one file, the components are
1000, 200, 5, 50, 8, 10, 5 and 10 and the remittance is 712. -/
theorem remit_formula_and_scenario_A :
    (∀ (view : List Row) (n : Nat),
      amount_to_remit view n =
        total_revenue view -
          (total_refunds view + ipay_commission view + bank_transfer_charges n +
            vat_bank_transfer n + nayax_commission view + bck_commission view +
            total_vat view)) ∧
    metricsView scenarioA [7] = Except.ok scenarioA ∧
    total_revenue scenarioA = 1000 ∧
    total_refunds scenarioA = 200 ∧
    ipay_commission scenarioA = 5 ∧
    bank_transfer_charges 1 = 50 ∧
    vat_bank_transfer 1 = 8 ∧
    nayax_commission scenarioA = 10 ∧
    bck_commission scenarioA = 5 ∧
    total_vat scenarioA = 10 ∧
    amount_to_remit scenarioA 1 = 712 := by
  refine ⟨fun view n => rfl, by decide, ?_⟩
  norm_num [amount_to_remit, total_revenue, total_refunds, ipay_commission, total_vat,
    bank_transfer_charges, vat_bank_transfer, nayax_commission, bck_commission,
    c2b_rows, sumBy, scenarioA, rowC2B, rowRefund, rowBankcost, List.filter_cons,
    str_refund_c2b, str_bankcost_c2b, str_c2b_c2b, str_c2b_refund,
    str_bankcost_refund, str_refund_refund]

/-- C3: for every row set, vendor selection, file count and mapping
input, the metrics snapshot produced by a computation cycle, and in
particular its amount_to_remit, is the same for any two channel type
selections: the channel filter never reaches the metrics view. -/
theorem metrics_remit_channel_noninterference :
    ∀ (rows : List Row) (vids : List ℚ) (ch1 ch2 : List String) (n : Nat)
      (parse : String → Option VendorMap) (text : String),
      (computeAll rows vids ch1 n parse text).map
          (fun o => o.snapshot.amount_to_remit) =
        (computeAll rows vids ch2 n parse text).map
          (fun o => o.snapshot.amount_to_remit) := by
  intro rows vids ch1 ch2 n parse text
  cases h : metricsView rows vids with
  | error e => simp [computeAll, h]
  | ok mdf => simp [computeAll, h, Except.map]

/-- C5 counterexample: on a one row set whose only present channel type
is C2B and whose vendor 7 is selected, the empty channel selection
yields the empty report view while selecting every present channel
keeps the row, so empty is not select all; and the empty vendor
selection makes the metrics view construction fail with the KeyError
instead of selecting all. -/
theorem empty_selection_counterexample :
    reportView [rowC2B] [7] ([] : List String) ≠
      reportView [rowC2B] [7] ["C2B"] ∧
    metricsView [rowC2B] ([] : List ℚ) = Except.error "KeyError: True" := by
  exact ⟨by decide, rfl⟩

/-- C5 amended: an empty channel type selection filters out every row
of the report view rather than selecting all, and an empty vendor
selection makes the script index the frame with the scalar True, a
KeyError, rather than selecting all. -/
theorem empty_selection_behavior :
    ∀ (rows mdf : List Row),
      metricsView rows ([] : List ℚ) = Except.error "KeyError: True" ∧
      filterChannels mdf ([] : List String) = [] := by
  intro rows mdf
  refine ⟨rfl, List.filter_eq_nil_iff.mpr ?_⟩
  intro r _
  cases hc : r.channel <;> simp [hc]

/-- C6: the report view bank transfer charge is 0 when no row of the
view has channel BANKCOST and 50 per uploaded file when at least one
such row exists, however many there are, while the metrics view charge
is 50 per uploaded file unconditionally. -/
theorem report_charge_conditional :
    ∀ (view : List Row) (n : Nat),
      ((∀ r ∈ view, r.channel ≠ some "BANKCOST") →
        report_bank_transfer_charges view n = 0) ∧
      ((∃ r ∈ view, r.channel = some "BANKCOST") →
        report_bank_transfer_charges view n = 50 * n) ∧
      bank_transfer_charges n = 50 * n := by
  intro view n
  refine ⟨?_, ?_, rfl⟩
  · intro h
    have hany : view.any (fun r => r.channel == some "BANKCOST") = false := by
      rw [List.any_eq_false]
      intro r hr
      simpa using h r hr
    simp [report_bank_transfer_charges, hany]
  · rintro ⟨r, hr, hch⟩
    have hany : view.any (fun r => r.channel == some "BANKCOST") = true :=
      List.any_eq_true.mpr ⟨r, hr, by simp [hch]⟩
    simp [report_bank_transfer_charges, hany]

/-- Witness for C6: a view with one BANKCOST row and two files is
charged 100, and a view with only a C2B row is charged nothing. -/
theorem report_charge_conditional_witness :
    report_bank_transfer_charges [rowBankcost] 2 = 100 ∧
    report_bank_transfer_charges [rowC2B] 2 = 0 := by
  constructor
  · have h := (report_charge_conditional [rowBankcost] 2).2.1
      ⟨rowBankcost, List.mem_singleton.mpr rfl, rfl⟩
    rw [h]; norm_num
  · exact (report_charge_conditional [rowC2B] 2).1 (by decide)

/-- C2 counterexample: one C2B row of vendor 7, vendor selection 7,
channel selection C2B, one file.  The row passes both filters, the
report view has no BANKCOST row, and the report remittance is 985 while
the metrics view formula, with its unconditional 50 charge and its 16
percent VAT, gives 927 on exactly the same rows. -/
theorem report_remit_spec_formula_counterexample :
    report_amount_to_remit (filterChannels (filterVids [rowC2B] [7]) ["C2B"]) 1 = 985 ∧
    spec_metrics_formula_remit (filterChannels (filterVids [rowC2B] [7]) ["C2B"]) 1 = 927 ∧
    report_amount_to_remit (filterChannels (filterVids [rowC2B] [7]) ["C2B"]) 1 ≠
      spec_metrics_formula_remit (filterChannels (filterVids [rowC2B] [7]) ["C2B"]) 1 := by
  have h1 : report_amount_to_remit (filterChannels (filterVids [rowC2B] [7]) ["C2B"]) 1 = 985 := by
    norm_num [report_amount_to_remit, total_revenue, total_refunds, ipay_commission,
      total_vat, report_bank_transfer_charges, report_vat_bank_transfer,
      nayax_commission, bck_commission, c2b_rows, sumBy, filterChannels, filterVids,
      rowC2B, List.filter_cons, str_c2b_c2b, str_c2b_refund, str_c2b_bankcost]
  have h2 : spec_metrics_formula_remit (filterChannels (filterVids [rowC2B] [7]) ["C2B"]) 1 = 927 := by
    norm_num [spec_metrics_formula_remit, total_revenue, total_refunds, ipay_commission,
      total_vat, bank_transfer_charges, vat_bank_transfer, nayax_commission,
      bck_commission, c2b_rows, sumBy, filterChannels, filterVids, rowC2B,
      List.filter_cons, str_c2b_c2b, str_c2b_refund, str_c2b_bankcost]
  refine ⟨h1, h2, ?_⟩
  rw [h1, h2]
  norm_num

/-- C2 amended: the report remittance equals the metric component rules
applied to exactly the rows passing both filters, but with the report
rule for the bank transfer charge, which is conditional on a BANKCOST
row being present in the view; when such a row is present the report
remittance coincides with the unconditional metrics view formula on the
same rows. -/
theorem report_remit_refines_conditional_charge :
    ∀ (rows : List Row) (vids : List ℚ) (channels : List String) (n : Nat),
      vids ≠ [] →
      reportView rows vids channels =
        Except.ok (filterChannels (filterVids rows vids) channels) ∧
      ((∃ r ∈ filterChannels (filterVids rows vids) channels,
          r.channel = some "BANKCOST") →
        report_amount_to_remit (filterChannels (filterVids rows vids) channels) n =
          spec_metrics_formula_remit
            (filterChannels (filterVids rows vids) channels) n) := by
  intro rows vids channels n hne
  constructor
  · cases vids with
    | nil => exact absurd rfl hne
    | cons a l => rfl
  · rintro ⟨r, hr, hch⟩
    have hany : (filterChannels (filterVids rows vids) channels).any
        (fun r => r.channel == some "BANKCOST") = true :=
      List.any_eq_true.mpr ⟨r, hr, by simp [hch]⟩
    unfold report_amount_to_remit spec_metrics_formula_remit
      report_vat_bank_transfer report_bank_transfer_charges
      vat_bank_transfer bank_transfer_charges
    rw [hany]
    simp

/-- Witness for C2 amended: Scenario A with every channel selected has
a BANKCOST row in the report view, and there the report remittance
agrees with the unconditional metrics view formula. -/
theorem report_remit_refines_conditional_charge_witness :
    reportView scenarioA [7] ["C2B", "REFUND", "BANKCOST"] =
      Except.ok (filterChannels (filterVids scenarioA [7])
        ["C2B", "REFUND", "BANKCOST"]) ∧
    report_amount_to_remit
        (filterChannels (filterVids scenarioA [7]) ["C2B", "REFUND", "BANKCOST"]) 1 =
      spec_metrics_formula_remit
        (filterChannels (filterVids scenarioA [7]) ["C2B", "REFUND", "BANKCOST"]) 1 := by
  have h := report_remit_refines_conditional_charge scenarioA [7]
    ["C2B", "REFUND", "BANKCOST"] 1 (by decide)
  exact ⟨h.1, h.2 ⟨rowBankcost, by decide, rfl⟩⟩

/-- C7 counterexample: a nonempty vendor selection matching no row does
produce the empty metrics view, but with one uploaded file the bank
transfer charge still displays 50, its VAT 8, and the remittance minus
58, so not every displayed metric renders as 0.00. -/
theorem no_match_vendor_counterexample :
    metricsView [rowC2B] [9] = Except.ok [] ∧
    bank_transfer_charges 1 = 50 ∧
    bank_transfer_charges 1 ≠ 0 ∧
    vat_bank_transfer 1 = 8 ∧
    amount_to_remit ([] : List Row) 1 = -58 ∧
    amount_to_remit ([] : List Row) 1 ≠ 0 := by
  refine ⟨by decide, ?_⟩
  norm_num [bank_transfer_charges, vat_bank_transfer, amount_to_remit, total_revenue,
    total_refunds, ipay_commission, total_vat, nayax_commission, bck_commission,
    c2b_rows, sumBy]

/-- C7 amended: a nonempty vendor selection matching no row yields the
empty metrics view with no error, and the row dependent metrics
(total_revenue, total_refunds, nayax_commission, bck_commission,
ipay_commission, total_vat, avg_daily_revenue) all render 0.00, while
bank_transfer_charges still renders 50 per file, vat_bank_transfer 8
per file, and amount_to_remit minus 58 per file. -/
theorem no_match_vendor_zeroes :
    ∀ (rows : List Row) (vids : List ℚ) (n : Nat),
      vids ≠ [] →
      (∀ r ∈ rows, ∀ v, r.vid = some v → v ∉ vids) →
      metricsView rows vids = Except.ok [] ∧
      total_revenue ([] : List Row) = 0 ∧
      total_refunds ([] : List Row) = 0 ∧
      nayax_commission ([] : List Row) = 0 ∧
      bck_commission ([] : List Row) = 0 ∧
      ipay_commission ([] : List Row) = 0 ∧
      total_vat ([] : List Row) = 0 ∧
      avg_daily ([] : List Row) = some 0 ∧
      bank_transfer_charges n = 50 * n ∧
      vat_bank_transfer n = 8 * n ∧
      amount_to_remit ([] : List Row) n = -(58 * n) := by
  intro rows vids n hne hnomatch
  constructor
  · have hfil : filterVids rows vids = [] := by
      apply List.filter_eq_nil_iff.mpr
      intro r hr
      cases hv : r.vid with
      | none => simp
      | some v => simp [hnomatch r hr v hv]
    cases vids with
    | nil => exact absurd rfl hne
    | cons a l => simpa [metricsView] using hfil
  · refine ⟨by simp [total_revenue, c2b_rows, sumBy],
      by norm_num [total_refunds, sumBy],
      by simp [nayax_commission, total_revenue, c2b_rows, sumBy],
      by simp [bck_commission, total_revenue, c2b_rows, sumBy],
      by simp [ipay_commission, sumBy], by simp [total_vat, sumBy],
      rfl, rfl, ?_, ?_⟩
    · simp [vat_bank_transfer, bank_transfer_charges]
      ring
    · simp [amount_to_remit, total_revenue, total_refunds, ipay_commission,
        total_vat, nayax_commission, bck_commission, c2b_rows, sumBy,
        vat_bank_transfer, bank_transfer_charges, abs_zero]
      ring

/-- Witness for C7 amended: the one row set of vendor 7, selection 9,
one file. -/
theorem no_match_vendor_zeroes_witness :
    metricsView [rowC2B] [9] = Except.ok [] ∧
    amount_to_remit ([] : List Row) 1 = -(58 * 1) := by
  have h := no_match_vendor_zeroes [rowC2B] [9] 1 (by decide) ?_
  · exact ⟨h.1, by simpa using h.2.2.2.2.2.2.2.2.2.2⟩
  · intro r hr v hv
    rw [List.mem_singleton] at hr
    subst hr
    rw [show rowC2B.vid = some 7 from rfl] at hv
    cases hv
    decide

/- Helper lemmas relating the per-date group sums of the groupby on
line 186 to the flat sum over the dated rows of the view. -/

theorem daily_sum_cons (r : Row) (rest : List Row) (d : Nat) :
    daily_sum (r :: rest) d =
      (if r.date = some d then r.amount.getD 0 else 0) + daily_sum rest d := by
  unfold daily_sum sumBy
  rw [List.filter_cons]
  by_cases h : r.date = some d
  · simp [h]
  · simp [h]

theorem daily_sum_zero_of_not_mem (view : List Row) (d : Nat)
    (h : d ∉ view.filterMap Row.date) : daily_sum view d = 0 := by
  unfold daily_sum sumBy
  rw [List.filter_eq_nil_iff.mpr, List.map_nil, List.sum_nil]
  intro r hr
  simp only [beq_iff_eq]
  intro hd
  exact h (List.mem_filterMap.mpr ⟨r, hr, by rw [hd]⟩)

theorem map_sum_pick_one {D : List Nat} (hD : D.Nodup) {d0 : Nat} (hmem : d0 ∈ D)
    (f : Nat → ℚ) (a : ℚ) :
    (D.map (fun d => (if d = d0 then a else 0) + f d)).sum = a + (D.map f).sum := by
  induction D with
  | nil => cases hmem
  | cons e es ih =>
    rcases List.mem_cons.mp hmem with he | hmem2
    · subst he
      simp only [List.map_cons, List.sum_cons, if_pos rfl]
      have htail : es.map (fun d => (if d = d0 then a else 0) + f d) = es.map f := by
        apply List.map_congr_left
        intro d hd
        have : d ≠ d0 := fun hdd => (List.nodup_cons.mp hD).1 (hdd ▸ hd)
        simp [this]
      rw [htail]
      simp only [if_true]
      ring
    · have he : e ≠ d0 := fun h => (List.nodup_cons.mp hD).1 (h ▸ hmem2)
      simp only [List.map_cons, List.sum_cons, if_neg he]
      rw [ih (List.nodup_cons.mp hD).2 hmem2]
      ring

theorem daily_partition (view : List Row) :
    ((dates_of view).map (daily_sum view)).sum =
      sumBy Row.amount (view.filter (fun r => r.date.isSome)) := by
  induction view with
  | nil => rfl
  | cons r rest ih =>
    cases hd : r.date with
    | none =>
      have hdates : dates_of (r :: rest) = dates_of rest := by
        unfold dates_of
        rw [List.filterMap_cons]
        simp [hd]
      have hmapeq : (dates_of rest).map (daily_sum (r :: rest)) =
          (dates_of rest).map (daily_sum rest) := by
        apply List.map_congr_left
        intro d _
        rw [daily_sum_cons]
        simp [hd]
      have hfil : (r :: rest).filter (fun r => r.date.isSome) =
          rest.filter (fun r => r.date.isSome) := by
        rw [List.filter_cons]
        simp [hd]
      rw [hdates, hmapeq, hfil]
      exact ih
    | some d0 =>
      have hfil : sumBy Row.amount ((r :: rest).filter (fun r => r.date.isSome)) =
          r.amount.getD 0 + sumBy Row.amount (rest.filter (fun r => r.date.isSome)) := by
        rw [List.filter_cons]
        simp [hd, sumBy]
      by_cases hmem : d0 ∈ rest.filterMap Row.date
      · have hdates : dates_of (r :: rest) = dates_of rest := by
          unfold dates_of
          rw [List.filterMap_cons]
          simp only [hd]
          exact List.dedup_cons_of_mem hmem
        have hcong : (dates_of rest).map (daily_sum (r :: rest)) =
            (dates_of rest).map
              (fun d => (if d = d0 then r.amount.getD 0 else 0) + daily_sum rest d) := by
          apply List.map_congr_left
          intro d _
          rw [daily_sum_cons, hd]
          by_cases hdd : d = d0
          · simp [hdd]
          · simp [hdd, Ne.symm hdd]
        have hnodup : (dates_of rest).Nodup := by
          unfold dates_of
          exact List.nodup_dedup _
        have hm : d0 ∈ dates_of rest := by
          unfold dates_of
          exact List.mem_dedup.mpr hmem
        rw [hdates, hcong, map_sum_pick_one hnodup hm, hfil, ih]
      · have hdates : dates_of (r :: rest) = d0 :: dates_of rest := by
          unfold dates_of
          rw [List.filterMap_cons]
          simp only [hd]
          exact List.dedup_cons_of_not_mem hmem
        have h1 : daily_sum (r :: rest) d0 = r.amount.getD 0 := by
          rw [daily_sum_cons, daily_sum_zero_of_not_mem rest d0 hmem, hd]
          simp
        have h2 : (dates_of rest).map (daily_sum (r :: rest)) =
            (dates_of rest).map (daily_sum rest) := by
          apply List.map_congr_left
          intro d hdm
          have hne : d ≠ d0 := fun hdd => hmem (hdd ▸ List.mem_dedup.mp hdm)
          rw [daily_sum_cons, hd]
          simp [Ne.symm hne]
        rw [hdates, List.map_cons, List.sum_cons, h1, h2, hfil, ih]

/-- C4 counterexample: on a metrics view holding a dated C2B row of
amount 1000 and a dated REFUND row of amount minus 200 on the same day,
the claim predicts the mean of the per-date C2B sums, 1000, but the
code groups every row of the view and displays 800. -/
theorem avg_daily_c2b_counterexample :
    avg_daily [rowC2B, rowRefund] = some 800 ∧
    avg_daily [rowC2B, rowRefund] ≠ some 1000 := by
  have h : avg_daily [rowC2B, rowRefund] = some 800 := by
    norm_num [avg_daily, dates_of, daily_sum, sumBy, rowC2B, rowRefund,
      List.filter_cons, List.filterMap_cons]
  refine ⟨h, ?_⟩
  rw [h]
  norm_num

/-- C4 amended: avg_daily_revenue is the arithmetic mean over distinct
non-null dates of the per-date sums of Amount over ALL rows of the
metrics view, not only the C2B rows: the mean times the number of
distinct dates equals the flat Amount sum of every dated row.  It is
0.00 for an empty view; for a nonempty view with no non-null date it is
the mean of an empty series, NaN, rather than zero. -/
theorem avg_daily_all_rows_mean :
    ∀ (view : List Row),
      (view = [] → avg_daily view = some 0) ∧
      (view ≠ [] → dates_of view = [] → avg_daily view = none) ∧
      (dates_of view ≠ [] → ∃ m, avg_daily view = some m ∧
        m * (dates_of view).length =
          sumBy Row.amount (view.filter (fun r => r.date.isSome))) := by
  intro view
  refine ⟨?_, ?_, ?_⟩
  · rintro rfl; rfl
  · intro hne hdates
    simp [avg_daily, hdates, hne]
  · intro hne
    have hvne : view ≠ [] := by
      intro h
      rw [h] at hne
      exact hne rfl
    have hlen : (((dates_of view).length : ℚ)) ≠ 0 := by
      rw [Nat.cast_ne_zero]
      simpa [List.length_eq_zero] using hne
    refine ⟨((dates_of view).map (daily_sum view)).sum / (dates_of view).length, ?_, ?_⟩
    · simp [avg_daily, hvne, hne]
    · rw [div_mul_cancel₀ _ hlen, daily_partition]

/-- Witness for C4 amended: on the two row view the displayed mean
times the single distinct date recovers the full dated Amount sum. -/
theorem avg_daily_all_rows_mean_witness :
    ∃ m, avg_daily [rowC2B, rowRefund] = some m ∧
      m * (dates_of [rowC2B, rowRefund]).length =
        sumBy Row.amount (([rowC2B, rowRefund] : List Row).filter
          (fun r => r.date.isSome)) :=
  (avg_daily_all_rows_mean [rowC2B, rowRefund]).2.2 (by decide)

/- Helper: the first offending file in the validation loop determines
the error the loader reports. -/

theorem loadRows_error_of_bad :
    ∀ (files : List SourceFile), (∃ f ∈ files, hasCols f = false) →
      ∃ f ∈ files, hasCols f = false ∧
        loadRows files = Except.error (schema_error_msg f.name) := by
  intro files
  induction files with
  | nil => rintro ⟨f, hf, -⟩; cases hf
  | cons g gs ih =>
    rintro ⟨f, hf, hcols⟩
    by_cases hg : hasCols g
    · have hex : ∃ f ∈ gs, hasCols f = false := by
        rcases List.mem_cons.mp hf with h | h
        · subst h
          rw [hg] at hcols
          cases hcols
        · exact ⟨f, h, hcols⟩
      rcases ih hex with ⟨f2, hf2, hc2, herr⟩
      refine ⟨f2, List.mem_cons_of_mem _ hf2, hc2, ?_⟩
      simp [loadRows, hg, herr, Except.map]
    · refine ⟨g, List.mem_cons_self _ _, by simpa using hg, ?_⟩
      simp [loadRows, hg]

/-- C8: when any uploaded file lacks one of the required columns Date,
Amount, Commission, Vat, Vid, Channel Type, loading the batch fails
with the error naming an offending file and the expected column list,
and no concatenated row set or file count is produced for the batch. -/
theorem schema_mismatch_halts :
    ∀ (files : List SourceFile),
      (∃ f ∈ files, hasCols f = false) →
      ∃ f ∈ files, hasCols f = false ∧
        loadFiles files = Except.error (schema_error_msg f.name) ∧
        ∀ res, loadFiles files ≠ Except.ok res := by
  intro files hex
  rcases loadRows_error_of_bad files hex with ⟨f, hf, hc, herr⟩
  have hload : loadFiles files = Except.error (schema_error_msg f.name) := by
    cases files with
    | nil => cases hf
    | cons g gs => simp [loadFiles, herr, Except.map]
  exact ⟨f, hf, hc, hload, fun res hok => by rw [hload] at hok; cases hok⟩

/-- Witness for C8: a single file exposing only a Date column makes the
batch fail with the schema error naming it. -/
theorem schema_mismatch_halts_witness :
    loadFiles [badFile] = Except.error (schema_error_msg "a.csv") := by
  obtain ⟨f, hf, -, herr, -⟩ :=
    schema_mismatch_halts [badFile] ⟨badFile, List.mem_singleton.mpr rfl, by decide⟩
  rw [List.mem_singleton] at hf
  subst hf
  exact herr

/-- C9: whenever evaluating the vendor mapping text fails, the cycle
still completes, with the default single entry mapping substituted, the
warning surfaced, and every output identical for any two failing
mapping texts. -/
theorem mapping_failure_fallback :
    ∀ (rows : List Row) (vids : List ℚ) (channels : List String) (n : Nat)
      (parse : String → Option VendorMap) (t1 t2 : String),
      parse t1 = none → parse t2 = none → vids ≠ [] →
      computeAll rows vids channels n parse t1 =
        computeAll rows vids channels n parse t2 ∧
      ∃ out, computeAll rows vids channels n parse t1 = Except.ok out ∧
        out.warning = true ∧ out.vendor_map_used = default_vendor_map := by
  intro rows vids channels n parse t1 t2 h1 h2 hne
  have hmv : metricsView rows vids = Except.ok (filterVids rows vids) := by
    cases vids with
    | nil => exact absurd rfl hne
    | cons a l => rfl
  refine ⟨by simp [computeAll, hmv, h1, h2], ?_⟩
  refine ⟨{ snapshot := mkSnapshot (filterVids rows vids) n,
            report_remit :=
              report_amount_to_remit (filterChannels (filterVids rows vids) channels) n,
            vendor_map_used := default_vendor_map,
            warning := true,
            vendor_names := (filterChannels (filterVids rows vids) channels).map
              (vendorName default_vendor_map) }, ?_, rfl, rfl⟩
  simp [computeAll, hmv, h1, resolveMapping]

/-- Witness for C9: two failing mapping texts on the one row set give
identical completed outputs with the fallback mapping and warning. -/
theorem mapping_failure_fallback_witness :
    computeAll [rowC2B] [7] ["C2B"] 1 (fun _ => none) "x" =
      computeAll [rowC2B] [7] ["C2B"] 1 (fun _ => none) "y" ∧
    ∃ out, computeAll [rowC2B] [7] ["C2B"] 1 (fun _ => none) "x" = Except.ok out ∧
      out.warning = true ∧ out.vendor_map_used = default_vendor_map :=
  mapping_failure_fallback [rowC2B] [7] ["C2B"] 1 (fun _ => none) "x" "y" rfl rfl
    (List.cons_ne_nil _ _)

/-- C10: when every key of the parsed vendor mapping is a string, as in
the documented default mapping text, the numerically coerced Vid of a
row never matches a key, so the resolved vendor name of every row with
a non-null Vid is the stringified numeric Vid, not a configured display
name. -/
theorem string_keys_never_match :
    ∀ (m : VendorMap), (∀ p ∈ m, ∃ s, p.1 = MKey.str s) →
      ∀ (r : Row) (v : ℚ), r.vid = some v →
        mapLookup m (MKey.num v) = none ∧ vendorName m r = floatStr v := by
  intro m hm r v hv
  have hfind : m.find? (fun p => p.1 == MKey.num v) = none := by
    rw [List.find?_eq_none]
    intro p hp
    rcases hm p hp with ⟨s, hs⟩
    simp [hs]
  have hlk : mapLookup m (MKey.num v) = none := by simp [mapLookup, hfind]
  exact ⟨hlk, by simp [vendorName, hv, hlk]⟩

/-- Witness for C10: under the parsed default mapping, whose one key is
the string 254499, the row with numeric Vid 254499 resolves to the
string 254499.0 and not to Vendlite. -/
theorem string_keys_never_match_witness :
    mapLookup [(MKey.str "254499", "Vendlite")] (MKey.num 254499) = none ∧
    vendorName [(MKey.str "254499", "Vendlite")] rowVend = "254499.0" ∧
    "254499.0" ≠ "Vendlite" := by
  have h := string_keys_never_match [(MKey.str "254499", "Vendlite")]
    (by
      intro p hp
      rw [List.mem_singleton] at hp
      subst hp
      exact ⟨"254499", rfl⟩)
    rowVend 254499 rfl
  refine ⟨h.1, ?_, by decide⟩
  rw [h.2]
  rfl

end MerchantSales
